import Mathlib

/-!
Shallow embedding of `pred_spot_intensity/train_pytorch_models.py`.

The python module has five parts:
* `NeuralNDCGLoss` (source lines 31-41): wrapper of the external `neuralNDCG` loss;
* `train_torch_model` (lines 44-74): one fit/predict cycle via the external engine;
* `train_torch_model_cross_val_loop` (lines 77-139): cross-validation driver;
* `features_selection_torch_model` (lines 143-214): feature-attribution driver;
* `train_pytorch_model_on_intensities` (lines 218-362): top-level orchestrator.

External libraries (pytorch-lightning, sklearn, shap, and the sibling
`pytorch_utils` module) are modelled as oracle parameters: the embedding keeps
the control flow, the tabular reshaping and the error behaviour of the source,
while the numeric outputs of training and attribution are uninterpreted
functions supplied by the caller.  Intensity values are represented by `ℚ`.

The two pivoted observation tables (`Y` for the intensity column, `Y_detected`
for the `detected` column, lines 236-237) are built from the same observation
rows, so they share one missing-cell pattern; a pivoted table is therefore
modelled as a single partial map `obs : E → C → Option (ℚ × Bool)` from
(entity, (matrix, polarity)) to (intensity, detected), with `none` for a
combination that has no observation row (a `NaN` cell of both pivots).
-/

namespace PredSpot

variable {E C : Type}

/-- Cell of `Y = intensities_df.pivot(index=index_cols, columns=["matrix", "polarity"],
values=intensity_column)` (line 236): the observed intensity, absent (`NaN`)
when no observation exists for that (entity, matrix, polarity) combination. -/
def pivotY (obs : E → C → Option (ℚ × Bool)) (e : E) (c : C) : Option ℚ :=
  (obs e c).map Prod.fst

/-- Cell of `Y_detected = intensities_df.pivot(..., values="detected")` (line 237). -/
def pivotYdetected (obs : E → C → Option (ℚ × Bool)) (e : E) (c : C) : Option Bool :=
  (obs e c).map Prod.snd

/-- `Y_is_na = Y_detected.isna()` (line 240): true where no observation exists. -/
def Y_is_na (obs : E → C → Option (ℚ × Bool)) (e : E) (c : C) : Bool :=
  (pivotYdetected obs e c).isNone

/-- `Y_detected` after `Y_detected[Y_is_na] = False` (line 241): an absent cell
counts as not detected. -/
def Y_detected (obs : E → C → Option (ℚ × Bool)) (e : E) (c : C) : Bool :=
  (pivotYdetected obs e c).getD false

/-- `detected_ion_mask = Y_detected.sum(axis=1) > 0` (line 243): the
boolean row sum is positive iff at least one matrix/polarity cell is detected. -/
def detected_ion_mask (cols : List C) (obs : E → C → Option (ℚ × Bool)) (e : E) : Bool :=
  cols.any fun c => Y_detected obs e c

/-- `Y` after `Y[Y_detected == False] = 0` (line 251).  A detected cell always
holds an observed value and keeps it; an observed-but-not-detected cell and an
absent (`NaN`) cell are both set to 0, so the matrix becomes total. -/
def Y_zeroed (obs : E → C → Option (ℚ × Bool)) (e : E) (c : C) : ℚ :=
  match obs e c with
  | some (v, true) => v
  | some (_, false) => 0
  | none => 0

/-- `Y` after the additional `Y[Y_is_na] = -1` of the ranking branch (line 278):
originally-absent cells are overwritten with the sentinel -1. -/
def Y_ranking (obs : E → C → Option (ℚ × Bool)) (e : E) (c : C) : ℚ :=
  if Y_is_na obs e c then -1 else Y_zeroed obs e c

/-- The per-task target matrix variable `Y` of the orchestrator: a float matrix
for the ranking and regression branches, the boolean `Y_detected` for the
detection branch (line 280). -/
inductive TargetMatrix (E C : Type) where
  | float (f : E → C → ℚ)
  | bool (b : E → C → Bool)

/-- The numeric matrix actually handed to the training code: the drivers call
`Y.astype("float32")` (lines 91, 158), which casts booleans to 0/1. -/
def TargetMatrix.toFloat : TargetMatrix E C → E → C → ℚ
  | .float f, e, c => f e c
  | .bool b, e, c => if b e c then 1 else 0

/-- What the orchestrator passes on to the selected driver after lines 235-286:
the surviving row index of `Y`, the target matrix `Y`, and the optional
`ignore_mask`. -/
structure DerivedTargets (E C : Type) where
  rows : List E
  target : TargetMatrix E C
  ignore_mask : Option (E → C → Bool)

/-- Lines 235-286 of `train_pytorch_model_on_intensities`: pivot the
observations, mask `NaN` cells of `Y_detected` to `False`, drop the
never-detected rows for the ranking task only (lines 244-248), zero the
non-detected intensities (line 251), and derive the per-task target and
ignore-mask (lines 275-286); an unrecognized task name raises `ValueError`
(line 286). -/
def derive_task_targets (ents : List E) (cols : List C)
    (obs : E → C → Option (ℚ × Bool)) (task_name : String) :
    Except String (DerivedTargets E C) :=
  let rows := if task_name = "ranking" then
    ents.filter (fun e => detected_ion_mask cols obs e) else ents
  if task_name = "ranking" then
    .ok { rows := rows, target := .float (Y_ranking obs), ignore_mask := none }
  else if task_name = "detection" then
    .ok { rows := rows, target := .bool (Y_detected obs),
          ignore_mask := some (Y_is_na obs) }
  else if task_name = "regression" then
    .ok { rows := rows, target := .float (Y_zeroed obs),
          ignore_mask := some (fun e c => !Y_detected obs e c) }
  else
    .error "ValueError"

/-- Row index of the matrices the orchestrator passes to the drivers
(empty when the task name is invalid). -/
def derivedRows (ents : List E) (cols : List C)
    (obs : E → C → Option (ℚ × Bool)) (task_name : String) : List E :=
  match derive_task_targets ents cols obs task_name with
  | .ok d => d.rows
  | .error _ => []

/-- Float view of the target matrix the orchestrator passes to the drivers
(constant 0 when the task name is invalid). -/
def derivedTargetFloat (ents : List E) (cols : List C)
    (obs : E → C → Option (ℚ × Bool)) (task_name : String) : E → C → ℚ :=
  match derive_task_targets ents cols obs task_name with
  | .ok d => d.target.toFloat
  | .error _ => fun _ _ => 0

/-- Boolean target matrix among the derived targets, when the task produced one. -/
def derivedTargetBool (ents : List E) (cols : List C)
    (obs : E → C → Option (ℚ × Bool)) (task_name : String) : Option (E → C → Bool) :=
  match derive_task_targets ents cols obs task_name with
  | .ok { target := .bool b, .. } => some b
  | _ => none

/-- Ignore-mask among the derived targets, when present. -/
def derivedIgnore (ents : List E) (cols : List C)
    (obs : E → C → Option (ℚ × Bool)) (task_name : String) : Option (E → C → Bool) :=
  match derive_task_targets ents cols obs task_name with
  | .ok d => d.ignore_mask
  | .error _ => none

/-- Every observed intensity value is nonnegative (normalized intensities). -/
abbrev obsNonneg (obs : E → C → Option (ℚ × Bool)) : Prop :=
  ∀ e c, 0 ≤ (pivotY obs e c).getD 0

/-- Literal reading of claim C1: for the ranking task, the derived target
matrix never contains the value 0 at a surviving entity that has at least one
detection. -/
abbrev rankingNeverZeroClaim (ents : List E) (cols : List C)
    (obs : E → C → Option (ℚ × Bool)) : Prop :=
  ∀ e ∈ derivedRows ents cols obs "ranking",
    detected_ion_mask cols obs e = true →
      ∀ c ∈ cols, derivedTargetFloat ents cols obs "ranking" e c ≠ 0

/-- Full characterization of the ranking-task derivation (amended claim C1). -/
def RankingTargetSpec (ents : List E) (cols : List C)
    (obs : E → C → Option (ℚ × Bool)) : Prop :=
  derivedRows ents cols obs "ranking"
      = ents.filter (fun e => detected_ion_mask cols obs e) ∧
  (∀ e ∈ derivedRows ents cols obs "ranking", detected_ion_mask cols obs e = true) ∧
  (∀ e c, derivedTargetFloat ents cols obs "ranking" e c = -1 ↔ obs e c = none) ∧
  (∀ e c v, obs e c = some (v, true) →
    derivedTargetFloat ents cols obs "ranking" e c = v) ∧
  (∀ e c v, obs e c = some (v, false) →
    derivedTargetFloat ents cols obs "ranking" e c = 0) ∧
  derivedIgnore ents cols obs "ranking" = none

/-- Concrete observation table refuting the literal claim C1: one entity, two
(matrix, polarity) columns; the entity is detected in column 0 (intensity 5)
and observed but not detected in column 1 (intensity 3). -/
def exObsC1 : Fin 1 → Fin 2 → Option (ℚ × Bool) :=
  fun _ c => if c = 0 then some (5, true) else some (3, false)

/-- C1 (counterexample): as stated, the claim fails on the code.  For the
observation table `exObsC1` the single entity survives the ranking-task row
filter and has a detection, yet the derived target matrix holds 0 at its
observed-but-not-detected cell (the zeroing step of line 251 put it there). -/
theorem C1_ranking_never_zero_counterexample :
    ¬ rankingNeverZeroClaim (E := Fin 1) (C := Fin 2) [0] [0, 1] exObsC1 := by
  decide

/-- C1 (amended): for the ranking task, assuming all observed intensities are
nonnegative, the surviving rows are exactly the rows with at least one
detection, the sentinel -1 appears exactly at the originally-absent
(entity, matrix, polarity) combinations, a detected cell keeps its observed
intensity, an observed-but-not-detected cell is zeroed, and no ignore-mask is
produced. -/
theorem C1_ranking_targets (ents : List E) (cols : List C)
    (obs : E → C → Option (ℚ × Bool)) (hpos : obsNonneg obs) :
    RankingTargetSpec ents cols obs := by
  have htf : ∀ e c, derivedTargetFloat ents cols obs "ranking" e c = Y_ranking obs e c := by
    intro e c
    simp [derivedTargetFloat, derive_task_targets, TargetMatrix.toFloat]
  refine ⟨by simp [derivedRows, derive_task_targets], ?_, ?_, ?_, ?_, ?_⟩
  · intro e he
    simp only [derivedRows, derive_task_targets, if_pos rfl] at he
    exact (List.mem_filter.mp he).2
  · intro e c
    rw [htf]
    have hp := hpos e c
    unfold pivotY at hp
    rcases h : obs e c with _ | ⟨v, b⟩
    · simp [Y_ranking, Y_is_na, pivotYdetected, h]
    · rw [h] at hp
      simp at hp
      cases b
      · simp [Y_ranking, Y_is_na, Y_zeroed, pivotYdetected, h]
      · simp only [Y_ranking, Y_is_na, Y_zeroed, pivotYdetected, h, Option.map_some,
          Option.isNone_some, Bool.false_eq_true, if_false, reduceCtorEq, iff_false]
        intro hv
        simp at hv
        rw [hv] at hp
        norm_num at hp
  · intro e c v hv
    rw [htf]
    simp [Y_ranking, Y_is_na, Y_zeroed, pivotYdetected, hv]
  · intro e c v hv
    rw [htf]
    simp [Y_ranking, Y_is_na, Y_zeroed, pivotYdetected, hv]
  · simp [derivedIgnore, derive_task_targets]

/-- Concrete observation table used to instantiate the amended claim C1: two
entities over two columns; entity 0 is detected in column 0 and unobserved in
column 1, entity 1 is observed-not-detected in column 0 and unobserved in
column 1 (so entity 1 is dropped by the ranking row filter). -/
def exObsC1w : Fin 2 → Fin 2 → Option (ℚ × Bool) :=
  fun e c =>
    if e = 0 then (if c = 0 then some (5, true) else none)
    else (if c = 0 then some (3, false) else none)

/-- Witness for `C1_ranking_targets` at the concrete table `exObsC1w`. -/
theorem C1_ranking_targets_witness :
    obsNonneg (E := Fin 2) (C := Fin 2) exObsC1w ∧
      RankingTargetSpec (E := Fin 2) (C := Fin 2) [0, 1] [0, 1] exObsC1w :=
  ⟨by decide, C1_ranking_targets [0, 1] [0, 1] exObsC1w (by decide)⟩

/-- Characterization of the detection-task derivation (claim C2). -/
abbrev DetectionTargetSpec (ents : List E) (cols : List C)
    (obs : E → C → Option (ℚ × Bool)) : Prop :=
  derivedRows ents cols obs "detection" = ents ∧
  (∃ ig, derivedIgnore ents cols obs "detection" = some ig ∧
    (∀ e c, ig e c = Y_is_na obs e c) ∧
    (∀ e c, ig e c = true ↔ obs e c = none)) ∧
  (∃ tb, derivedTargetBool ents cols obs "detection" = some tb ∧
    (∀ e c, tb e c = Y_detected obs e c) ∧
    (∀ e c, tb e c = true ↔ ∃ v, obs e c = some (v, true)))

/-- C2: for the detection task no row is dropped, the ignore-mask handed to the
cross-validation driver is exactly the missingness matrix `Y_is_na` (a cell is
ignored iff no observation existed for it), and the target is the boolean
detection matrix with absent cells forced to `False` (a cell is true iff an
observation exists and was marked detected). -/
theorem C2_detection_targets (ents : List E) (cols : List C)
    (obs : E → C → Option (ℚ × Bool)) :
    DetectionTargetSpec ents cols obs := by
  refine ⟨by simp [derivedRows, derive_task_targets], ⟨Y_is_na obs, ?_, ?_, ?_⟩,
    ⟨Y_detected obs, ?_, ?_, ?_⟩⟩
  · simp [derivedIgnore, derive_task_targets]
  · intro e c; rfl
  · intro e c
    rcases h : obs e c with _ | ⟨v, b⟩ <;>
      simp [Y_is_na, pivotYdetected, h]
  · simp [derivedTargetBool, derive_task_targets]
  · intro e c; rfl
  · intro e c
    rcases h : obs e c with _ | ⟨v, b⟩
    · simp [Y_detected, pivotYdetected, h]
    · cases b <;> simp [Y_detected, pivotYdetected, h]

/-- Characterization of the regression-task derivation (claim C3). -/
abbrev RegressionTargetSpec (ents : List E) (cols : List C)
    (obs : E → C → Option (ℚ × Bool)) : Prop :=
  derivedRows ents cols obs "regression" = ents ∧
  (∃ ig, derivedIgnore ents cols obs "regression" = some ig ∧
    (∀ e c, ig e c = !Y_detected obs e c) ∧
    (∀ e c, ig e c = true ↔ ¬ ∃ v, obs e c = some (v, true)) ∧
    (∀ e c, ig e c = false →
      ∃ v, obs e c = some (v, true) ∧
        derivedTargetFloat ents cols obs "regression" e c = v))

/-- C3: for the regression task no row is dropped, the ignore-mask is the
logical negation of the (absent-as-false) detection matrix — a cell is ignored
iff it is not detected — and every non-ignored cell of the target matrix still
carries the originally observed intensity (the zeroing step of line 251 only
touched ignored cells). -/
theorem C3_regression_targets (ents : List E) (cols : List C)
    (obs : E → C → Option (ℚ × Bool)) :
    RegressionTargetSpec ents cols obs := by
  have htf : ∀ e c, derivedTargetFloat ents cols obs "regression" e c
      = Y_zeroed obs e c := by
    intro e c
    simp [derivedTargetFloat, derive_task_targets, TargetMatrix.toFloat]
  refine ⟨by simp [derivedRows, derive_task_targets],
    ⟨fun e c => !Y_detected obs e c, ?_, fun _ _ => rfl, ?_, ?_⟩⟩
  · simp [derivedIgnore, derive_task_targets]
  · intro e c
    rcases h : obs e c with _ | ⟨v, b⟩
    · simp [Y_detected, pivotYdetected, h]
    · cases b <;> simp [Y_detected, pivotYdetected, h]
  · intro e c hig
    have hdet : Y_detected obs e c = true := by simpa using hig
    rcases h : obs e c with _ | ⟨v, b⟩
    · simp [Y_detected, pivotYdetected, h] at hdet
    · cases b
      · simp [Y_detected, pivotYdetected, h] at hdet
      · exact ⟨v, rfl, by rw [htf]; simp [Y_zeroed, h]⟩

/-- Witness for `C2_detection_targets` at the concrete table `exObsC1w`. -/
theorem C2_detection_targets_witness :
    DetectionTargetSpec (E := Fin 2) (C := Fin 2) [0, 1] [0, 1] exObsC1w :=
  C2_detection_targets [0, 1] [0, 1] exObsC1w

/-- Witness for `C3_regression_targets` at the concrete table `exObsC1w`. -/
theorem C3_regression_targets_witness :
    RegressionTargetSpec (E := Fin 2) (C := Fin 2) [0, 1] [0, 1] exObsC1w :=
  C3_regression_targets [0, 1] [0, 1] exObsC1w

/-! ### Ranking-loss adapter (`NeuralNDCGLoss`, lines 31-41) -/

variable {P G K R : Type}

/-- The adapter object: the external `neuralNDCG` function it wraps and the
keyword options stored verbatim at construction (`self.loss_kwargs`, line 38). -/
structure NeuralNDCGLoss (P G K R : Type) where
  fn : P → G → K → R
  loss_kwargs : K

/-- `NeuralNDCGLoss.__init__` (lines 36-38): `assert neuralNDCG is not None,
"allRnak package is required"`, then store the options.  The import of the
external `allrank` implementation (lines 22-25) leaves `neuralNDCG = None`
when the package is absent, modelled by an `Option`-valued argument. -/
def NeuralNDCGLoss.construct (neuralNDCG : Option (P → G → K → R)) (kwargs : K) :
    Except String (NeuralNDCGLoss P G K R) :=
  match neuralNDCG with
  | none => .error "allRnak package is required"
  | some f => .ok { fn := f, loss_kwargs := kwargs }

/-- `NeuralNDCGLoss.__call__` (lines 40-41): forward the prediction, the ground
truth and the stored keyword options unchanged to the external loss. -/
def NeuralNDCGLoss.call (l : NeuralNDCGLoss P G K R) (pred : P) (gt : G) : R :=
  l.fn pred gt l.loss_kwargs

/-- Characterization of the ranking-loss adapter (claim C6). -/
abbrev NDCGAdapterSpec (f : P → G → K → R) (kwargs : K) : Prop :=
  @NeuralNDCGLoss.construct P G K R none kwargs
      = .error "allRnak package is required" ∧
  ∃ l, NeuralNDCGLoss.construct (some f) kwargs = .ok l ∧
    ∀ pred gt, l.call pred gt = f pred gt kwargs

/-- C6: constructing the ranking-loss adapter with the external implementation
absent fails immediately at construction time; with it present, construction
succeeds and every call forwards (prediction, ground truth) plus the
construction-time options unchanged to the external function and returns its
result, so a call can never fail. -/
theorem C6_neural_ndcg_adapter (f : P → G → K → R) (kwargs : K) :
    NDCGAdapterSpec f kwargs :=
  ⟨rfl, { fn := f, loss_kwargs := kwargs }, rfl, fun _ _ => rfl⟩

/-- Witness for `C6_neural_ndcg_adapter` on rational-valued predictions. -/
theorem C6_neural_ndcg_adapter_witness :
    NDCGAdapterSpec (fun p gt kw : ℚ => p + gt + kw) 2 :=
  C6_neural_ndcg_adapter (fun p gt kw : ℚ => p + gt + kw) 2

/-! ### Cross-validation driver (`train_torch_model_cross_val_loop`, lines 77-139) -/

/-- One row of the accumulated results table (lines 135-137): the original row
index of a held-out sample (from `pred_indices`), its prediction row, and the
fold number in which it was held out. -/
structure CVRow where
  idx : Nat
  preds : List ℚ
  fold : Nat
deriving DecidableEq

/-- Task dispatch of the cross-validation driver (lines 95-103): the final
activation (`none` for ranking) and the loss function, named; any task other
than "ranking" or "detection" raises `ValueError(task_name)` before the fold
loop starts. -/
def cross_val_task_config (task_name : String) : Except String (Option String × String) :=
  if task_name = "ranking" then .ok (none, "NeuralNDCGLoss")
  else if task_name = "detection" then .ok (some "Sigmoid", "SorensenDiceLoss")
  else .error task_name

/-- The fold loop of lines 112-137: for each fold, the held-out predictions
returned by the training oracle are tagged with the fold number and all the
per-fold tables are concatenated. -/
def cv_out (trainPredict : Nat → List Nat → List Nat → List (Nat × List ℚ))
    (folds : List (List Nat × List Nat)) : List CVRow :=
  (folds.enum).flatMap fun p =>
    (trainPredict p.1 p.2.1 p.2.2).map fun q => { idx := q.1, preds := q.2, fold := p.1 }

/-- `train_torch_model_cross_val_loop` (lines 77-139).  The stratified k-fold
split produced by sklearn (lines 106-109) is an oracle argument `folds` (train
indices, held-out indices, one pair per fold), and the per-fold training plus
held-out prediction (lines 112-133) is an oracle `trainPredict fold trainIdx
testIdx` returning one `(original row index, prediction row)` pair per
held-out sample.  The task name is checked first; then the per-fold tagged
prediction tables are accumulated into one table (lines 135-137).  An invalid
task name yields the error for every oracle: no model is constructed or
trained in that case. -/
def train_torch_model_cross_val_loop
    (trainPredict : Nat → List Nat → List Nat → List (Nat × List ℚ))
    (folds : List (List Nat × List Nat)) (task_name : String) :
    Except String (List CVRow) :=
  match cross_val_task_config task_name with
  | .error e => .error e
  | .ok _ => .ok (cv_out trainPredict folds)

/-- The stratified split partitions the input row indices `0..n-1`: the
concatenation of the held-out index sets over all folds is a permutation of
`range n`. -/
abbrev FoldsPartition (folds : List (List Nat × List Nat)) (n : Nat) : Prop :=
  ((folds.map Prod.snd).flatten).Perm (List.range n)

/-- The training oracle indexes each fold's prediction table by exactly that
fold's held-out rows, in some order (`trainer.predict` over a sampler of the
held-out indices yields one prediction per held-out row). -/
abbrev PredIndicesMatch
    (trainPredict : Nat → List Nat → List Nat → List (Nat × List ℚ))
    (folds : List (List Nat × List Nat)) : Prop :=
  ∀ p ∈ folds.enum, ((trainPredict p.1 p.2.1 p.2.2).map Prod.fst).Perm p.2.2

/-- Conclusion of claim C5: the combined results table exists, its row indices
are a permutation of the full input index `0..n-1` (every row exactly once),
and every result row is tagged with the fold in which its index was held out. -/
abbrev CrossValCoversSpec
    (trainPredict : Nat → List Nat → List Nat → List (Nat × List ℚ))
    (folds : List (List Nat × List Nat)) (task_name : String) (n : Nat) : Prop :=
  ∃ res, train_torch_model_cross_val_loop trainPredict folds task_name = .ok res ∧
    (res.map CVRow.idx).Perm (List.range n) ∧
    ∀ r ∈ res, ∃ tr te, folds[r.fold]? = some (tr, te) ∧ r.idx ∈ te

/-- Permutation congruence for `flatMap` under pointwise permutations. -/
theorem flatMap_perm_congr {α β : Type} {l : List α} {f g : α → List β}
    (h : ∀ a ∈ l, (f a).Perm (g a)) : (l.flatMap f).Perm (l.flatMap g) := by
  induction l with
  | nil => simp
  | cons a l ih =>
    simp only [List.flatMap_cons]
    exact (h a (List.mem_cons_self a l)).append
      (ih fun b hb => h b (List.mem_cons_of_mem a hb))

/-- C5: assuming the stratified k-fold split partitions the row indices and the
per-fold prediction tables are indexed by the held-out rows, the combined
cross-validation results table contains every input row index exactly once,
each row tagged with the fold number in which it was held out. -/
theorem C5_cross_val_covers_index
    (trainPredict : Nat → List Nat → List Nat → List (Nat × List ℚ))
    (folds : List (List Nat × List Nat)) (task_name : String) (n : Nat)
    (hvalid : task_name = "ranking" ∨ task_name = "detection")
    (hpart : FoldsPartition folds n)
    (hpred : PredIndicesMatch trainPredict folds) :
    CrossValCoversSpec trainPredict folds task_name n := by
  have hok : train_torch_model_cross_val_loop trainPredict folds task_name
      = .ok ((folds.enum).flatMap fun p =>
        (trainPredict p.1 p.2.1 p.2.2).map fun q =>
          { idx := q.1, preds := q.2, fold := p.1 }) := by
    rcases hvalid with h | h <;>
      simp [train_torch_model_cross_val_loop, cross_val_task_config, cv_out, h]
  refine ⟨_, hok, ?_, ?_⟩
  · have hmap : (((folds.enum).flatMap fun p =>
        (trainPredict p.1 p.2.1 p.2.2).map fun q =>
          ({ idx := q.1, preds := q.2, fold := p.1 } : CVRow)).map CVRow.idx)
        = (folds.enum).flatMap fun p => (trainPredict p.1 p.2.1 p.2.2).map Prod.fst := by
      rw [List.map_flatMap]
      refine List.flatMap_congr fun p _ => ?_
      rw [List.map_map]
      rfl
    rw [hmap]
    have h1 : ((folds.enum).flatMap fun p => (trainPredict p.1 p.2.1 p.2.2).map Prod.fst).Perm
        ((folds.enum).flatMap fun p => p.2.2) := flatMap_perm_congr hpred
    have h2 : ((folds.enum).flatMap fun p => p.2.2) = (folds.map Prod.snd).flatten := by
      rw [List.flatMap_def]
      have : (folds.enum).map (fun p => p.2.2) = folds.map Prod.snd := by
        have := List.enum_map_snd folds
        calc (folds.enum).map (fun p => p.2.2)
            = ((folds.enum).map Prod.snd).map Prod.snd := by rw [List.map_map]; rfl
          _ = folds.map Prod.snd := by rw [this]
      rw [this]
    exact h1.trans (h2 ▸ hpart)
  · intro r hr
    rcases List.mem_flatMap.mp hr with ⟨p, hp, hrp⟩
    rcases List.mem_map.mp hrp with ⟨q, hq, rfl⟩
    refine ⟨p.2.1, p.2.2, ?_, ?_⟩
    · have := List.mem_enum_iff_getElem?.mp hp
      simpa using this
    · exact (hpred p hp).mem_iff.mp (List.mem_map_of_mem Prod.fst hq)

/-- Concrete two-fold split of four rows used to instantiate C5. -/
def exFoldsC5 : List (List Nat × List Nat) := [([2, 3], [0, 1]), ([0, 1], [2, 3])]

/-- Concrete training oracle for the C5 witness: one constant prediction per
held-out row, indexed by the held-out rows in order. -/
def exPredictC5 : Nat → List Nat → List Nat → List (Nat × List ℚ) :=
  fun _ _ testIdx => testIdx.map fun i => (i, [1])

/-- Witness for `C5_cross_val_covers_index` on four rows and two folds. -/
theorem C5_cross_val_covers_index_witness :
    FoldsPartition exFoldsC5 4 ∧ PredIndicesMatch exPredictC5 exFoldsC5 ∧
      CrossValCoversSpec exPredictC5 exFoldsC5 "detection" 4 :=
  ⟨by decide, by decide,
    C5_cross_val_covers_index exPredictC5 exFoldsC5 "detection" 4
      (Or.inr rfl) (by decide) (by decide)⟩

/-! ### Feature-attribution driver (`features_selection_torch_model`, lines 143-214) -/

/-- Observable side-effecting steps of the feature-attribution driver:
training a fresh model (line 191), predicting over the full dataset
(line 198), loading a model from a checkpoint (line 203). -/
inductive FsEvent where
  | fitModel
  | predicted
  | loadedCheckpoint
deriving DecidableEq

/-- Task dispatch of the feature-attribution driver (lines 162-174): the
cross-validation driver's two tasks plus "regression" (MSE loss, no final
activation); any other task name raises `ValueError(task_name)`. -/
def features_selection_task_config (task_name : String) :
    Except String (Option String × String) :=
  if task_name = "ranking" then .ok (none, "NeuralNDCGLoss")
  else if task_name = "detection" then .ok (some "Sigmoid", "SorensenDiceLoss")
  else if task_name = "regression" then .ok (none, "MSELoss")
  else .error task_name

/-- `features_selection_torch_model` (lines 143-214), returning the list of the
steps it performed together with its result.  The SHAP computation
(lines 206-212) is an oracle value `shap_values`.  With no checkpoint the
driver trains a fresh model on the full dataset (line 191), predicts over it
(line 198), and then evaluates `ignore_mask.flatten()` for the printed
Spearman diagnostic (lines 199-201): when `ignore_mask` is `None` this raises
`AttributeError` — after the training already ran — and no attribution values
are returned.  With a checkpoint the model is loaded instead and the
diagnostic block is skipped, so `ignore_mask` is never touched here. -/
def features_selection_torch_model {S : Type} (shap_values : S) (task_name : String)
    (ignore_mask : Option (Nat → Nat → Bool)) (checkpoint_path : Option String) :
    List FsEvent × Except String S :=
  match features_selection_task_config task_name with
  | .error e => ([], .error e)
  | .ok _ =>
    match checkpoint_path with
    | none =>
      match ignore_mask with
      | none => ([.fitModel, .predicted],
          .error "AttributeError: NoneType object has no attribute flatten")
      | some _ => ([.fitModel, .predicted], .ok shap_values)
    | some _ => ([.loadedCheckpoint], .ok shap_values)

/-! ### Feature-importance table (orchestrator lines 341-362) -/

/-- One row of the feature-importance table (lines 353-359). -/
structure FeatRow where
  mean_abs_shap : ℚ
  matrix : String
  polarity : String
  feature_name : String
deriving DecidableEq

/-- `np.mean(np.abs(xs))` over a list of rationals.  For the empty list the
division yields 0 (numpy would produce NaN; no claim depends on that cell). -/
def mean_abs (xs : List ℚ) : ℚ := (xs.map (fun x => |x|)).sum / (xs.length : ℚ)

/-- `feat_names` (lines 341-343): the molecule feature names, with the adduct
one-hot column names PREPENDED when adduct features are used. -/
def feat_names (mol_features adduct_columns : List String)
    (use_adduct_features : Bool) : List String :=
  if use_adduct_features then adduct_columns ++ mol_features else mol_features

/-- Column order of the feature matrix `X` (lines 254-257): the molecule
feature columns first, then — when adduct features are used — the adduct
one-hot columns joined on the right. -/
def X_feature_sources (mol_features adduct_columns : List String)
    (use_adduct_features : Bool) : List String :=
  if use_adduct_features then mol_features ++ adduct_columns else mol_features

/-- The loop of lines 351-360: for the i-th (matrix, polarity) output
dimension, drop the sample rows flagged by column i of the ignore-mask
(line 353), take the mean absolute SHAP value of each feature column j over
the kept samples, and zip the resulting vector positionally with the
feature-name list (lines 354-359); concatenate the per-dimension tables. -/
def feat_importance_rows (cols : List (String × String)) (names : List String)
    (shap_values : Nat → Nat → Nat → ℚ) (nSamples : Nat)
    (ignore_mask : Nat → Nat → Bool) : List FeatRow :=
  (cols.enum).flatMap fun p =>
    (names.enum).map fun q =>
      { mean_abs_shap := mean_abs (((List.range nSamples).filter
            (fun r => !ignore_mask r p.1)).map fun r => shap_values p.1 r q.1),
        matrix := p.2.1, polarity := p.2.2, feature_name := q.2 }

/-- Line 361: `sort_values("mean_abs_shap", ascending=False)` followed by
`set_index("feature_name")`: the concatenated table ordered by non-increasing
`mean_abs_shap`. -/
def df_feat_importance (cols : List (String × String)) (names : List String)
    (shap_values : Nat → Nat → Nat → ℚ) (nSamples : Nat)
    (ignore_mask : Nat → Nat → Bool) : List FeatRow :=
  (feat_importance_rows cols names shap_values nSamples ignore_mask).mergeSort
    fun a b => decide (b.mean_abs_shap ≤ a.mean_abs_shap)

/-- The (matrix, polarity, feature name) key of a feature-importance row. -/
def FeatRow.key (r : FeatRow) : String × String × String :=
  (r.matrix, r.polarity, r.feature_name)

/-- Conclusion of claim C7 about the feature-importance table: its row keys
are exactly the (matrix, polarity, feature name) product, its length is the
product of the dimension and feature counts, each key occurs exactly once, the
rows are globally ordered by non-increasing `mean_abs_shap`, and every row is
indexed by a feature name from the feature-name list. -/
abbrev FeatTableSpec (cols : List (String × String)) (names : List String)
    (shap_values : Nat → Nat → Nat → ℚ) (nSamples : Nat)
    (ignore_mask : Nat → Nat → Bool) : Prop :=
  ((df_feat_importance cols names shap_values nSamples ignore_mask).map FeatRow.key).Perm
      (cols.flatMap fun c => names.map fun f => (c.1, c.2, f)) ∧
  (df_feat_importance cols names shap_values nSamples ignore_mask).length
      = cols.length * names.length ∧
  (∀ c ∈ cols, ∀ f ∈ names,
    (df_feat_importance cols names shap_values nSamples ignore_mask).countP
        (fun r => decide (FeatRow.key r = (c.1, c.2, f))) = 1) ∧
  ((df_feat_importance cols names shap_values nSamples ignore_mask).Pairwise
    fun a b => b.mean_abs_shap ≤ a.mean_abs_shap) ∧
  (∀ r ∈ df_feat_importance cols names shap_values nSamples ignore_mask,
    r.feature_name ∈ names)

/-- In a duplicate-free list a present element is matched by exactly one
position. -/
theorem countP_eq_one_of_nodup_mem {α : Type} [DecidableEq α] {l : List α} {a : α}
    (hn : l.Nodup) (ha : a ∈ l) : l.countP (fun x => decide (x = a)) = 1 := by
  induction l with
  | nil => simp at ha
  | cons b l ih =>
    rw [List.countP_cons]
    rcases List.mem_cons.mp ha with rfl | ha2
    · have hb : a ∉ l := (List.nodup_cons.mp hn).1
      have hz : l.countP (fun x => decide (x = a)) = 0 := by
        rw [List.countP_eq_zero]
        intro x hx
        simp only [decide_eq_true_eq]
        exact fun he => hb (he ▸ hx)
      simp [hz]
    · have hb : ¬(b = a) := fun he => (List.nodup_cons.mp hn).1 (he ▸ ha2)
      simp [ih (List.nodup_cons.mp hn).2 ha2, hb]

/-- Sum of a constant map. -/
theorem sum_map_const_nat {α : Type} (l : List α) (k : Nat) :
    (l.map fun _ => k).sum = l.length * k := by
  induction l with
  | nil => simp
  | cons a l ih => simp [ih, Nat.succ_mul, Nat.add_comm]

/-- The unsorted feature-importance rows carry exactly the product of the
output dimensions and the feature names as keys. -/
theorem feat_importance_rows_keys (cols : List (String × String))
    (names : List String) (shap_values : Nat → Nat → Nat → ℚ) (nSamples : Nat)
    (ignore_mask : Nat → Nat → Bool) :
    (feat_importance_rows cols names shap_values nSamples ignore_mask).map FeatRow.key
      = cols.flatMap fun c => names.map fun f => (c.1, c.2, f) := by
  unfold feat_importance_rows
  rw [List.map_flatMap]
  have hinner : ∀ p : Nat × String × String,
      (((names.enum).map fun q =>
        ({ mean_abs_shap := mean_abs (((List.range nSamples).filter
              (fun r => !ignore_mask r p.1)).map fun r => shap_values p.1 r q.1),
           matrix := p.2.1, polarity := p.2.2, feature_name := q.2 } : FeatRow)).map FeatRow.key)
      = names.map fun f => (p.2.1, p.2.2, f) := by
    intro p
    rw [List.map_map]
    have : ((fun q : Nat × String => (p.2.1, p.2.2, q.2))
        = (fun f => (p.2.1, p.2.2, f)) ∘ Prod.snd) := rfl
    show (names.enum).map (fun q : Nat × String => (p.2.1, p.2.2, q.2)) = _
    rw [this, ← List.map_map, List.enum_map_snd]
  calc ((cols.enum).flatMap fun p => (((names.enum).map fun q =>
          ({ mean_abs_shap := mean_abs (((List.range nSamples).filter
                (fun r => !ignore_mask r p.1)).map fun r => shap_values p.1 r q.1),
             matrix := p.2.1, polarity := p.2.2, feature_name := q.2 } : FeatRow)).map FeatRow.key))
      = (cols.enum).flatMap fun p => names.map fun f => (p.2.1, p.2.2, f) := by
        exact List.flatMap_congr fun p _ => hinner p
    _ = ((cols.enum).map Prod.snd).flatMap fun c => names.map fun f => (c.1, c.2, f) := by
        rw [List.flatMap_map]
    _ = cols.flatMap fun c => names.map fun f => (c.1, c.2, f) := by
        rw [List.enum_map_snd]

/-- C7: when the output dimensions and the feature names are duplicate-free,
the feature-importance table has exactly one row per (matrix, polarity,
feature name) triple — hence `#dimensions * #features` rows in total, each
feature name exactly once per (matrix, polarity) pair — its rows are globally
sorted by non-increasing `mean_abs_shap`, and every row is indexed by a
feature name. -/
theorem C7_feat_importance_table (cols : List (String × String))
    (names : List String) (shap_values : Nat → Nat → Nat → ℚ) (nSamples : Nat)
    (ignore_mask : Nat → Nat → Bool)
    (hcols : cols.Nodup) (hnames : names.Nodup) :
    FeatTableSpec cols names shap_values nSamples ignore_mask := by
  have hperm : (df_feat_importance cols names shap_values nSamples ignore_mask).Perm
      (feat_importance_rows cols names shap_values nSamples ignore_mask) :=
    List.mergeSort_perm _ _
  have hkeys := feat_importance_rows_keys cols names shap_values nSamples ignore_mask
  have hkeyperm : ((df_feat_importance cols names shap_values nSamples ignore_mask).map
      FeatRow.key).Perm (cols.flatMap fun c => names.map fun f => (c.1, c.2, f)) := by
    rw [← hkeys]
    exact hperm.map FeatRow.key
  have hprodnodup : (cols.flatMap fun c => names.map fun f => (c.1, c.2, f)).Nodup := by
    rw [List.nodup_flatMap]
    constructor
    · intro c _
      exact hnames.map (fun f g hfg => congrArg (Prod.snd ∘ Prod.snd) hfg)
    · refine hcols.imp ?_
      intro c c' hne
      intro x hx hx'
      rcases List.mem_map.mp hx with ⟨f, _, rfl⟩
      rcases List.mem_map.mp hx' with ⟨f', _, hf'⟩
      obtain ⟨a, b⟩ := c
      obtain ⟨a', b'⟩ := c'
      simp only [Prod.mk.injEq] at hf'
      exact hne (by rw [hf'.1, hf'.2.1])
  refine ⟨hkeyperm, ?_, ?_, ?_, ?_⟩
  · have hlen1 : (df_feat_importance cols names shap_values nSamples ignore_mask).length
        = ((df_feat_importance cols names shap_values nSamples ignore_mask).map
            FeatRow.key).length := (List.length_map _ _).symm
    rw [hlen1, hkeyperm.length_eq, List.length_flatMap]
    have : (List.map (List.length ∘ fun c => names.map fun f => (c.1, c.2, f)) cols)
        = cols.map fun _ => names.length := by
      refine List.map_congr_left fun c _ => ?_
      simp
    rw [this, sum_map_const_nat]
  · intro c hc f hf
    have h1 := hperm.countP_eq (fun r => decide (FeatRow.key r = (c.1, c.2, f)))
    rw [h1]
    have h2 : (feat_importance_rows cols names shap_values nSamples ignore_mask).countP
        (fun r => decide (FeatRow.key r = (c.1, c.2, f)))
        = ((feat_importance_rows cols names shap_values nSamples ignore_mask).map
            FeatRow.key).countP (fun k => decide (k = (c.1, c.2, f))) := by
      rw [List.countP_map]
      rfl
    rw [h2, hkeys]
    exact countP_eq_one_of_nodup_mem hprodnodup
      (List.mem_flatMap.mpr ⟨c, hc, List.mem_map_of_mem _ hf⟩)
  · have hs := @List.sorted_mergeSort FeatRow
      (fun a b : FeatRow => decide (b.mean_abs_shap ≤ a.mean_abs_shap))
      (fun a b c hab hbc => by
        simp only [decide_eq_true_eq] at *
        exact le_trans hbc hab)
      (fun a b => by
        simp only [Bool.or_eq_true, decide_eq_true_eq]
        exact le_total b.mean_abs_shap a.mean_abs_shap)
      (feat_importance_rows cols names shap_values nSamples ignore_mask)
    exact hs.imp fun h => by simpa using h
  · intro r hr
    have hr2 := hperm.mem_iff.mp hr
    unfold feat_importance_rows at hr2
    rcases List.mem_flatMap.mp hr2 with ⟨p, _, hrp⟩
    rcases List.mem_map.mp hrp with ⟨q, hq, rfl⟩
    have : q.2 ∈ (names.enum).map Prod.snd := List.mem_map_of_mem Prod.snd hq
    rwa [List.enum_map_snd] at this

/-- Concrete instantiation for the C7 witness: 2 output dimensions and 5
features, giving a 10-row table. -/
def exColsC7 : List (String × String) := [("DHB", "positive"), ("DAN", "negative")]

/-- Five feature names for the C7 witness. -/
def exNamesC7 : List String := ["mw", "logp", "tpsa", "hbd", "hba"]

/-- Witness for `C7_feat_importance_table`: 2 dimensions and 5 features. -/
theorem C7_feat_importance_table_witness :
    exColsC7.Nodup ∧ exNamesC7.Nodup ∧
      FeatTableSpec exColsC7 exNamesC7 (fun i r j => (i * 10 + r + j : ℚ)) 3
        (fun r i => decide (r + i = 2)) :=
  ⟨by decide, by decide,
    C7_feat_importance_table exColsC7 exNamesC7 _ 3 _ (by decide) (by decide)⟩

/-- Characterization of the adduct-feature label mismatch (claim C9): `X` is
ordered molecule features then adducts, the name list adducts then molecule
features, and the table pairs the j-th per-column score with the j-th name. -/
abbrev AdductNameMismatchSpec (mol_features adduct_columns : List String)
    (cols : List (String × String)) (shap_values : Nat → Nat → Nat → ℚ)
    (nSamples : Nat) (ignore_mask : Nat → Nat → Bool) : Prop :=
  X_feature_sources mol_features adduct_columns true
      = mol_features ++ adduct_columns ∧
  feat_names mol_features adduct_columns true
      = adduct_columns ++ mol_features ∧
  ((feat_importance_rows cols (feat_names mol_features adduct_columns true)
      shap_values nSamples ignore_mask).map fun r => r.feature_name)
    = cols.flatMap (fun _ => adduct_columns ++ mol_features) ∧
  ((feat_importance_rows cols (feat_names mol_features adduct_columns true)
      shap_values nSamples ignore_mask).map fun r => r.mean_abs_shap)
    = (cols.enum).flatMap fun p =>
        (List.range (adduct_columns ++ mol_features).length).map fun j =>
          mean_abs (((List.range nSamples).filter
            (fun r => !ignore_mask r p.1)).map fun r => shap_values p.1 r j)

/-- C9: when adduct features are used, the feature matrix `X` has the molecule
feature columns first and the adduct one-hot columns after (lines 254-257),
while the feature-name list zipped positionally against the per-column mean
absolute SHAP values places the adduct one-hot names first (lines 341-343):
in each output dimension the j-th score is computed from SHAP column j (X
column order, molecule features first) but labeled with the j-th name of the
adducts-first list. -/
theorem C9_feature_name_order_mismatch (mol_features adduct_columns : List String)
    (cols : List (String × String)) (shap_values : Nat → Nat → Nat → ℚ)
    (nSamples : Nat) (ignore_mask : Nat → Nat → Bool) :
    AdductNameMismatchSpec mol_features adduct_columns cols shap_values
      nSamples ignore_mask := by
  refine ⟨rfl, rfl, ?_, ?_⟩
  · unfold feat_importance_rows
    rw [List.map_flatMap]
    have h1 : ∀ p : Nat × String × String, (((feat_names mol_features adduct_columns
          true).enum).map fun q =>
        ({ mean_abs_shap := mean_abs (((List.range nSamples).filter
              (fun r => !ignore_mask r p.1)).map fun r => shap_values p.1 r q.1),
           matrix := p.2.1, polarity := p.2.2, feature_name := q.2 } : FeatRow)).map
          (fun r => r.feature_name) = adduct_columns ++ mol_features := by
      intro p
      rw [List.map_map]
      show ((feat_names mol_features adduct_columns true).enum).map Prod.snd = _
      rw [List.enum_map_snd]
      rfl
    calc _ = cols.enum.flatMap fun _ => adduct_columns ++ mol_features :=
          List.flatMap_congr fun p _ => h1 p
      _ = ((cols.enum).map Prod.snd).flatMap fun _ => adduct_columns ++ mol_features := by
          rw [List.flatMap_map]
      _ = _ := by rw [List.enum_map_snd]
  · unfold feat_importance_rows
    rw [List.map_flatMap]
    refine List.flatMap_congr fun p _ => ?_
    rw [List.map_map]
    have h2 : (((feat_names mol_features adduct_columns true).enum).map fun q =>
        mean_abs (((List.range nSamples).filter
          (fun r => !ignore_mask r p.1)).map fun r => shap_values p.1 r q.1))
        = (((feat_names mol_features adduct_columns true).enum).map Prod.fst).map
            fun j => mean_abs (((List.range nSamples).filter
              (fun r => !ignore_mask r p.1)).map fun r => shap_values p.1 r j) := by
      rw [List.map_map]
      rfl
    show (((feat_names mol_features adduct_columns true).enum).map fun q =>
        mean_abs (((List.range nSamples).filter
          (fun r => !ignore_mask r p.1)).map fun r => shap_values p.1 r q.1)) = _
    rw [h2, List.enum_map_fst]
    rfl

/-- Witness for `C9_feature_name_order_mismatch` with one molecule feature and
one adduct column. -/
theorem C9_feature_name_order_mismatch_witness :
    AdductNameMismatchSpec ["mw"] ["+H"] [("DHB", "positive")]
      (fun i r j => (i + r + j : ℚ)) 2 (fun _ _ => false) :=
  C9_feature_name_order_mismatch ["mw"] ["+H"] [("DHB", "positive")]
    (fun i r j => (i + r + j : ℚ)) 2 (fun _ _ => false)

/-! ### Top-level orchestrator (`train_pytorch_model_on_intensities`, lines 218-362) -/

/-- An entity key of the pivoted matrices: the list of row-index levels,
`["name_short", "adduct"]` values when adduct features are used and
`["name_short"]` alone otherwise (line 235). -/
abbrev Entity := List String

/-- A (matrix, polarity) output column of the pivoted matrices (lines 236-237). -/
abbrev MatPol := String × String

/-- One row of the long-form results table of the cross-validation path
(lines 306-325): the entity key, the matrix and polarity levels, the observed
value, the prediction, the re-attached fold id and the constant model tag
(line 322). -/
structure LongRow where
  entity : Entity
  matrix : String
  polarity : String
  observed_value : ℚ
  prediction : ℚ
  fold : Nat
  model_type : String
deriving DecidableEq

/-- Lines 319-321: one lookup of
`training_results.loc[[zip(index.get_level_values(0), index.get_level_values(1))], "fold"]`.
The key is built from levels 0 and 1 of the stacked long-form index (the
entity levels followed by the matrix and polarity levels), and looked up among
the per-entity rows of the results table; `none` models the `KeyError` raised
when the pair is not in the table index. -/
def fold_lookup (foldTable : List (Entity × Nat)) (stackedKey : List String) :
    Option Nat :=
  (foldTable.find? fun q => decide (q.1 = stackedKey.take 2)).map Prod.snd

/-- Lines 306-325: reshape the wide cross-validation results into long form.
`Y` is stacked into the observed-value series and the predictions (fold column
dropped) into the prediction series over the same (entity, matrix, polarity)
index; the two series are joined, the fold id is re-attached per row via
`fold_lookup`, every row is tagged with `model_type = "NN"`, and the index is
flattened into columns.  A failed fold lookup raises `KeyError`: no table is
returned. -/
def reshape_cross_val_results (rows_index : List Entity) (cols : List MatPol)
    (observed : Entity → MatPol → ℚ) (predicted : Entity → MatPol → ℚ)
    (foldTable : List (Entity × Nat)) : Except String (List LongRow) :=
  (rows_index.flatMap fun ek => cols.map fun c => (ek, c)).mapM fun p =>
    match fold_lookup foldTable (p.1 ++ [p.2.1, p.2.2]) with
    | some fd =>
        .ok ⟨p.1, p.2.1, p.2.2, observed p.1 p.2, predicted p.1 p.2, fd, "NN"⟩
    | none => .error "KeyError"

/-- Result of the orchestrator: the long-form results table of the
cross-validation path (line 325) or the feature-importance table of the
feature-selection path (line 362). -/
inductive OrchResult where
  | longTable (rows : List LongRow)
  | featTable (rows : List FeatRow)

/-- Lines 307-309: `out.sort_index()` re-keyed positionally onto the row index
of `Y`, keeping the fold column: the entity at position i of the row index is
paired with the fold of the result row whose index is i (the driver's indices
cover positions 0..n-1 exactly once under the fold-partition assumption of
claim C5; 0 stands for a missing position). -/
def orch_fold_table (rows : List Entity) (out : List CVRow) : List (Entity × Nat) :=
  rows.enum.map fun p =>
    (p.2, ((out.find? fun r => r.idx == p.1).map CVRow.fold).getD 0)

/-- Lines 312-315: the prediction series, re-keyed like `orch_fold_table` and
read per (matrix, polarity) column position (0 for a missing position). -/
def orch_predicted (rows : List Entity) (cols : List MatPol) (out : List CVRow) :
    Entity → MatPol → ℚ := fun ek c =>
  (((out.find? fun r => r.idx == rows.indexOf ek).map
    CVRow.preds).getD []).getD (cols.indexOf c) 0

/-- Line 328-346 plumbing: the derived ignore-mask as the positional numpy
array handed to the attribution driver (sample row, output dimension). -/
def orch_ignore_arr (d : DerivedTargets Entity MatPol) (cols : List MatPol) :
    Option (Nat → Nat → Bool) :=
  d.ignore_mask.map fun ig =>
    fun r i => ig (d.rows.getD r []) (cols.getD i ("", ""))

/-- `train_pytorch_model_on_intensities` (lines 218-362), over the pivoted
observation table (see the header comment) and the training / SHAP oracles.
The target matrices and per-task ignore-mask come from `derive_task_targets`
(lines 235-286).  With `do_feature_selection = False` the cross-validation
driver runs (lines 292-302) and its output is reshaped into long form
(lines 306-325): the sorted results are re-keyed positionally onto the row
index of `Y` (lines 307-309), so the entity at position i carries the fold of
the result row with index i.  With `do_feature_selection = True` the
feature-attribution driver runs (lines 328-338), the ignore-mask is cast
(line 346; an `AttributeError` on `None`), and the feature-importance table is
assembled (lines 341-362). -/
def train_pytorch_model_on_intensities
    (ents : List Entity) (cols : List MatPol)
    (obs : Entity → MatPol → Option (ℚ × Bool))
    (task_name : String) (do_feature_selection : Bool)
    (checkpoint_path : Option String) (use_adduct_features : Bool)
    (mol_features adduct_columns : List String)
    (trainPredict : Nat → List Nat → List Nat → List (Nat × List ℚ))
    (folds : List (List Nat × List Nat))
    (shap_values : Nat → Nat → Nat → ℚ) : Except String OrchResult :=
  match derive_task_targets ents cols obs task_name with
  | .error e => .error e
  | .ok d =>
    if !do_feature_selection then
      match train_torch_model_cross_val_loop trainPredict folds task_name with
      | .error e => .error e
      | .ok out =>
        match reshape_cross_val_results d.rows cols d.target.toFloat
            (orch_predicted d.rows cols out) (orch_fold_table d.rows out) with
        | .error e => .error e
        | .ok tbl => .ok (.longTable tbl)
    else
      match features_selection_torch_model shap_values task_name
          (orch_ignore_arr d cols) checkpoint_path with
      | (_, .error e) => .error e
      | (_, .ok sv) =>
        match orch_ignore_arr d cols with
        | none => .error "AttributeError: NoneType object has no attribute astype"
        | some ig =>
          .ok (.featTable (df_feat_importance cols
            (feat_names mol_features adduct_columns use_adduct_features)
            sv d.rows.length ig))

/-- A successful `mapM` over `Except` maps every element successfully. -/
theorem mapM_ok_forall {α β : Type} {f : α → Except String β} {l : List α}
    {res : List β} (h : l.mapM f = .ok res) : ∀ x ∈ l, ∃ y, f x = .ok y := by
  induction l generalizing res with
  | nil => intro x hx; exact absurd hx (List.not_mem_nil x)
  | cons a l ih =>
    intro x hx
    rw [List.mapM_cons] at h
    cases hfa : f a with
    | error e =>
      rw [hfa] at h
      have h2 : (Except.error e : Except String (List β)) = .ok res := h
      exact absurd h2 (by simp)
    | ok y =>
      rw [hfa] at h
      cases hrest : l.mapM f with
      | error e =>
        rw [hrest] at h
        have h2 : (Except.error e : Except String (List β)) = .ok res := h
        exact absurd h2 (by simp)
      | ok ys =>
        rcases List.mem_cons.mp hx with rfl | hx2
        · exact ⟨y, hfa⟩
        · exact ih hrest x hx2

/-- `mapM` over `Except` succeeds when every element maps successfully. -/
theorem mapM_ok_of_forall {α β : Type} {f : α → Except String β} {l : List α}
    (h : ∀ x ∈ l, ∃ y, f x = .ok y) : ∃ res, l.mapM f = .ok res := by
  induction l with
  | nil => exact ⟨[], rfl⟩
  | cons a l ih =>
    obtain ⟨y, hy⟩ := h a (List.mem_cons_self a l)
    obtain ⟨res, hres⟩ := ih fun x hx => h x (List.mem_cons_of_mem a hx)
    refine ⟨y :: res, ?_⟩
    rw [List.mapM_cons, hy, hres]
    rfl

/-- `mapM` over `Except` fails with the head error. -/
theorem mapM_error_head {α β : Type} {f : α → Except String β} {a : α}
    {l : List α} {e : String} (h : f a = .error e) :
    (a :: l).mapM f = .error e := by
  rw [List.mapM_cons, h]
  rfl

/-- With a single-level row index (`use_adduct_features = False`, line 235) and
single-level fold-table keys, the fold re-attachment (lines 319-321) fails on
the very first stacked row: the (level-0, level-1) pair spans the entity level
and the matrix level, and no single-level key can match it. -/
theorem reshape_single_level_fails (rows_index : List Entity) (cols : List MatPol)
    (observed predicted : Entity → MatPol → ℚ) (foldTable : List (Entity × Nat))
    (h1 : ∀ k ∈ rows_index, k.length = 1)
    (hkeys : ∀ q ∈ foldTable, q.1.length = 1)
    (hrows : rows_index ≠ []) (hcols : cols ≠ []) :
    reshape_cross_val_results rows_index cols observed predicted foldTable
      = .error "KeyError" := by
  obtain ⟨e0, es, rfl⟩ : ∃ e0 es, rows_index = e0 :: es := by
    cases rows_index with
    | nil => exact absurd rfl hrows
    | cons a l => exact ⟨a, l, rfl⟩
  obtain ⟨c0, cs, rfl⟩ : ∃ c0 cs, cols = c0 :: cs := by
    cases cols with
    | nil => exact absurd rfl hcols
    | cons a l => exact ⟨a, l, rfl⟩
  obtain ⟨s, hs⟩ := List.length_eq_one.mp (h1 e0 (List.mem_cons_self e0 es))
  have hfind : foldTable.find?
      (fun q => decide (q.1 = (e0 ++ [c0.1, c0.2]).take 2)) = none := by
    refine List.find?_eq_none.mpr ?_
    intro q hq
    simp only [decide_eq_true_eq]
    intro hcon
    have hlen := congrArg List.length hcon
    rw [hkeys q hq, hs] at hlen
    simp at hlen
  have hnone : fold_lookup foldTable (e0 ++ [c0.1, c0.2]) = none := by
    unfold fold_lookup
    rw [hfind]
    rfl
  unfold reshape_cross_val_results
  rw [List.flatMap_cons, List.map_cons, List.cons_append]
  exact mapM_error_head (by simp [hnone])

/-- With two-level row index keys (`use_adduct_features = True`, line 235) all
present among the fold-table keys, every fold lookup of lines 319-321 succeeds
and the long-form table is produced. -/
theorem reshape_two_level_ok (rows_index : List Entity) (cols : List MatPol)
    (observed predicted : Entity → MatPol → ℚ) (foldTable : List (Entity × Nat))
    (h2 : ∀ k ∈ rows_index, k.length = 2)
    (hkeys : ∀ k ∈ rows_index, ∃ q ∈ foldTable, q.1 = k) :
    ∃ tbl, reshape_cross_val_results rows_index cols observed predicted foldTable
      = .ok tbl := by
  unfold reshape_cross_val_results
  refine mapM_ok_of_forall ?_
  intro p hp
  rcases List.mem_flatMap.mp hp with ⟨ek, hek, hpc⟩
  rcases List.mem_map.mp hpc with ⟨c, hc, rfl⟩
  have htake : (ek ++ [c.1, c.2]).take 2 = ek := by
    have h := List.take_left ek [c.1, c.2]
    rwa [h2 ek hek] at h
  obtain ⟨q, hq, hqk⟩ := hkeys ek hek
  have hfind : ((foldTable.find?
      fun q2 => decide (q2.1 = (ek ++ [c.1, c.2]).take 2)).isSome) = true := by
    refine List.find?_isSome.mpr ⟨q, hq, ?_⟩
    simp [htake, hqk]
  obtain ⟨q3, hq3⟩ := Option.isSome_iff_exists.mp hfind
  have hfl : fold_lookup foldTable (ek ++ [c.1, c.2]) = some q3.2 := by
    unfold fold_lookup
    rw [hq3]
    rfl
  exact ⟨⟨ek, c.1, c.2, observed ek c, predicted ek c, q3.2, "NN"⟩, by simp [hfl]⟩

/-- The cross-validation path of the orchestrator for the detection task
reduces to the reshape step applied to the driver output. -/
theorem orch_detection_cv_path (ents : List Entity) (cols : List MatPol)
    (obs : Entity → MatPol → Option (ℚ × Bool)) (checkpoint_path : Option String)
    (use_adduct_features : Bool) (mol_features adduct_columns : List String)
    (trainPredict : Nat → List Nat → List Nat → List (Nat × List ℚ))
    (folds : List (List Nat × List Nat)) (shap_values : Nat → Nat → Nat → ℚ) :
    train_pytorch_model_on_intensities ents cols obs "detection" false
        checkpoint_path use_adduct_features mol_features adduct_columns
        trainPredict folds shap_values
      = match reshape_cross_val_results ents cols
          (TargetMatrix.bool (Y_detected obs)).toFloat
          (orch_predicted ents cols (cv_out trainPredict folds))
          (orch_fold_table ents (cv_out trainPredict folds)) with
        | .error e => .error e
        | .ok tbl => .ok (.longTable tbl) := by
  unfold train_pytorch_model_on_intensities
  simp [derive_task_targets, train_torch_model_cross_val_loop, cross_val_task_config]

/-- C10: the long-form reshaping of the non-feature-selection path hinges on
the number of row-index levels.  With single-level entity keys
(`use_adduct_features = False`) and a nonempty table, the fold re-attachment
lookup fails (`KeyError`) and no table is returned; with two-level entity keys
(`use_adduct_features = True`) the lookups succeed and the long-form table is
returned. -/
theorem C10_long_form_reshape_requires_two_levels
    (ents : List Entity) (cols : List MatPol)
    (obs : Entity → MatPol → Option (ℚ × Bool)) (checkpoint_path : Option String)
    (use_adduct_features : Bool) (mol_features adduct_columns : List String)
    (trainPredict : Nat → List Nat → List Nat → List (Nat × List ℚ))
    (folds : List (List Nat × List Nat)) (shap_values : Nat → Nat → Nat → ℚ) :
    ((∀ k ∈ ents, k.length = 1) → ents ≠ [] → cols ≠ [] →
      train_pytorch_model_on_intensities ents cols obs "detection" false
        checkpoint_path use_adduct_features mol_features adduct_columns
        trainPredict folds shap_values = .error "KeyError") ∧
    ((∀ k ∈ ents, k.length = 2) →
      ∃ tbl, train_pytorch_model_on_intensities ents cols obs "detection" false
        checkpoint_path use_adduct_features mol_features adduct_columns
        trainPredict folds shap_values = .ok (.longTable tbl)) := by
  constructor
  · intro h1 hents hcols
    have hkeys : ∀ q ∈ orch_fold_table ents (cv_out trainPredict folds),
        q.1.length = 1 := by
      intro q hq
      unfold orch_fold_table at hq
      rcases List.mem_map.mp hq with ⟨p, hp, rfl⟩
      refine h1 p.2 ?_
      have hmem : p.2 ∈ ents.enum.map Prod.snd := List.mem_map_of_mem Prod.snd hp
      rwa [List.enum_map_snd] at hmem
    rw [orch_detection_cv_path, reshape_single_level_fails ents cols
      (TargetMatrix.bool (Y_detected obs)).toFloat
      (orch_predicted ents cols (cv_out trainPredict folds))
      (orch_fold_table ents (cv_out trainPredict folds)) h1 hkeys hents hcols]
  · intro h2
    have hkeys : ∀ k ∈ ents,
        ∃ q ∈ orch_fold_table ents (cv_out trainPredict folds), q.1 = k := by
      intro k hk
      have hmem : k ∈ ents.enum.map Prod.snd := by
        rw [List.enum_map_snd]
        exact hk
      rcases List.mem_map.mp hmem with ⟨p, hp, rfl⟩
      refine ⟨(p.2, (((cv_out trainPredict folds).find?
        fun r => r.idx == p.1).map CVRow.fold).getD 0), ?_, rfl⟩
      unfold orch_fold_table
      exact List.mem_map_of_mem _ hp
    obtain ⟨tbl, htbl⟩ := reshape_two_level_ok ents cols
      (TargetMatrix.bool (Y_detected obs)).toFloat
      (orch_predicted ents cols (cv_out trainPredict folds))
      (orch_fold_table ents (cv_out trainPredict folds)) h2 hkeys
    exact ⟨tbl, by rw [orch_detection_cv_path, htbl]⟩

/-- Concrete observation table for the C10 witness. -/
def exObsC10 : Entity → MatPol → Option (ℚ × Bool) := fun _ _ => some (1, true)

/-- Concrete training oracle for the C10 witness. -/
def exPredictC10 : Nat → List Nat → List Nat → List (Nat × List ℚ) :=
  fun _ _ testIdx => testIdx.map fun i => (i, [0])

/-- Witness for `C10_long_form_reshape_requires_two_levels`: a single-level
molecule key makes the cross-validation path fail, a two-level
(molecule, adduct) key makes it return a table. -/
theorem C10_long_form_reshape_requires_two_levels_witness :
    (train_pytorch_model_on_intensities [["glucose"]] [("DHB", "positive")]
      exObsC10 "detection" false none false [] [] exPredictC10 [([], [0])]
      (fun _ _ _ => 0) = .error "KeyError") ∧
    (∃ tbl, train_pytorch_model_on_intensities [["glucose", "+H"]]
      [("DHB", "positive")] exObsC10 "detection" false none true [] []
      exPredictC10 [([], [0])] (fun _ _ _ => 0) = .ok (.longTable tbl)) :=
  ⟨(C10_long_form_reshape_requires_two_levels [["glucose"]] [("DHB", "positive")]
      exObsC10 none false [] [] exPredictC10 [([], [0])] (fun _ _ _ => 0)).1
      (by decide) (by decide) (by decide),
   (C10_long_form_reshape_requires_two_levels [["glucose", "+H"]]
      [("DHB", "positive")] exObsC10 none true [] [] exPredictC10 [([], [0])]
      (fun _ _ _ => 0)).2 (by decide)⟩

/-- Conclusion of claim C4: with a task name outside the cross-validation
driver's valid set that driver fails with the invalid-task error for every
training oracle — so before any model is constructed or trained — and when
the name is also outside the attribution driver's and the orchestrator's
valid set, those two components fail the same way for every oracle, the
attribution driver with an empty step trace. -/
abbrev InvalidTaskSpec (task_name : String) : Prop :=
  (∀ trainPredict folds,
    train_torch_model_cross_val_loop trainPredict folds task_name
      = .error task_name) ∧
  (task_name ≠ "regression" →
    (∀ (S : Type) (shap_values : S) ignore_mask checkpoint_path,
      features_selection_torch_model shap_values task_name ignore_mask
        checkpoint_path = ([], .error task_name)) ∧
    (∀ ents cols obs do_feature_selection checkpoint_path use_adduct_features
        mol_features adduct_columns trainPredict folds shap_values,
      train_pytorch_model_on_intensities ents cols obs task_name
        do_feature_selection checkpoint_path use_adduct_features mol_features
        adduct_columns trainPredict folds shap_values = .error "ValueError"))

/-- C4: a task name outside {"ranking", "detection"} is rejected by the
cross-validation driver, and one also outside {"regression"} is rejected by
the attribution driver (empty step trace: nothing was trained) and by the
top-level orchestrator; in each case the result is the same for every
training / attribution oracle, i.e. the failure happens before any model is
constructed or trained. -/
theorem C4_invalid_task_rejected (task_name : String)
    (hr : task_name ≠ "ranking") (hd : task_name ≠ "detection") :
    InvalidTaskSpec task_name := by
  refine ⟨?_, fun hreg => ⟨?_, ?_⟩⟩
  · intro trainPredict folds
    simp [train_torch_model_cross_val_loop, cross_val_task_config, hr, hd]
  · intro S shap_values ignore_mask checkpoint_path
    simp [features_selection_torch_model, features_selection_task_config,
      hr, hd, hreg]
  · intro ents cols obs do_feature_selection checkpoint_path use_adduct_features
      mol_features adduct_columns trainPredict folds shap_values
    simp [train_pytorch_model_on_intensities, derive_task_targets, hr, hd, hreg]

/-- Witness for `C4_invalid_task_rejected` at the task name "classification". -/
theorem C4_invalid_task_rejected_witness : InvalidTaskSpec "classification" :=
  C4_invalid_task_rejected "classification" (by decide) (by decide)

/-- Conclusion of claim C8 for a given task name: the attribution driver with
no ignore-mask and no checkpoint trains and predicts, then fails without
returning attribution values; with an ignore-mask present it returns them; and
the orchestrator's feature-selection path for the "ranking" task — which
derives `ignore_mask = None` — propagates that failure for every oracle. -/
abbrev MissingIgnoreMaskSpec (task_name : String) : Prop :=
  (∀ (S : Type) (shap_values : S),
    features_selection_torch_model shap_values task_name none none
      = ([.fitModel, .predicted],
        .error "AttributeError: NoneType object has no attribute flatten")) ∧
  (∀ (S : Type) (shap_values : S) (m : Nat → Nat → Bool),
    features_selection_torch_model shap_values task_name (some m) none
      = ([.fitModel, .predicted], .ok shap_values)) ∧
  (∀ ents cols obs use_adduct_features mol_features adduct_columns
      trainPredict folds shap_values,
    train_pytorch_model_on_intensities ents cols obs "ranking" true none
      use_adduct_features mol_features adduct_columns trainPredict folds
      shap_values
      = .error "AttributeError: NoneType object has no attribute flatten")

/-- C8: the feature-attribution driver requires a non-`None` ignore-mask
whenever no checkpoint is given: it unconditionally flattens the ignore-mask
for the diagnostic correlation after training, so a call with
`ignore_mask = None` and no checkpoint fails after the model was fitted,
instead of returning attribution values — in particular the "ranking" task
dispatched from the orchestrator, which passes `ignore_mask = None`. -/
theorem C8_attribution_requires_ignore_mask (task_name : String)
    (hvalid : task_name = "ranking" ∨ task_name = "detection"
      ∨ task_name = "regression") :
    MissingIgnoreMaskSpec task_name := by
  refine ⟨?_, ?_, ?_⟩
  · intro S shap_values
    rcases hvalid with h | h | h <;> subst h <;> rfl
  · intro S shap_values m
    rcases hvalid with h | h | h <;> subst h <;> rfl
  · intro ents cols obs use_adduct_features mol_features adduct_columns
      trainPredict folds shap_values
    rfl

/-- Witness for `C8_attribution_requires_ignore_mask` at the "ranking" task. -/
theorem C8_attribution_requires_ignore_mask_witness :
    MissingIgnoreMaskSpec "ranking" :=
  C8_attribution_requires_ignore_mask "ranking" (Or.inl rfl)

end PredSpot
